import Mathlib

/-
Verification development for the x86-64 frame walker of the PLCrashReporter fork
(src/Source/PLCrashFrameWalker_x86_64.c).  The file shallowly embeds the current
(libunwind + stack-scan) variant of the walker: the first translation unit of the
source file, guarded by __x86_64__.

Modelling conventions:
  * Machine words (uint64_t / plframe_greg_t / uintptr_t) are Nat values; wherever
    the C code performs uint64 arithmetic that can overflow, the embedding reduces
    modulo 2 ^ 64 explicitly.  Stack-scan address arithmetic
    (loc = last_stack_pointer + 8 * k, k ≤ 500) is carried out in Nat, which agrees
    with the uint64 computation whenever the 501-word window does not wrap around
    the 64-bit address space.
  * The fault-tolerant read primitive plframe_read_addr (external, declared in
    PLCrashFrameWalker.h) is a parameter mem : Nat → Option Nat; none models a
    KERN_SUCCESS ≠ result (a faulting read), some d a successfully read word.
  * libunwind (external) is a parameter of type UnwindProvider: unw_step and
    unw_init_local return an Int status plus a new opaque cursor handle (a Nat);
    unw_get_reg returns an Int status and the register value.  The C code threads
    the handle through the cursor field unwcrsr.
  * The image list collaborator is a List of image descriptors; the
    set_reading read-marker calls are concurrency bookkeeping with no effect on
    the values computed and are not represented.
  * plframe_cursor_next and plframe_get_reg are pure state transformers
    cursor → error × cursor (plus a ghost Bool on plframe_cursor_next recording
    whether plframe_cursor_scan_stack was invoked during the call, so that
    claims about scanner invocation are statable).
-/

set_option maxRecDepth 20000

/-- Error codes of the walker (plframe_error_t, declared in PLCrashFrameWalker.h;
the constructors are the codes the translation unit in src/ uses).
PLFRAME_EUNKNOWN wraps a raw libunwind status, see plframe_error_from_unwerror. -/
inductive plframe_error where
  | PLFRAME_ESUCCESS
  | PLFRAME_ENOFRAME
  | PLFRAME_EBADFRAME
  | PLFRAME_ENOTSUP
  | PLFRAME_INTERNAL
  | PLFRAME_EUNKNOWN (code : Int)
deriving DecidableEq, Repr

/-- Register identifiers of the walker (plframe_regnum_t): exactly the ids the
source dispatches on in plframe_get_reg / plframe_get_regname. -/
inductive plframe_regnum where
  | PLFRAME_X86_64_RAX
  | PLFRAME_X86_64_RBX
  | PLFRAME_X86_64_RCX
  | PLFRAME_X86_64_RDX
  | PLFRAME_X86_64_RDI
  | PLFRAME_X86_64_RSI
  | PLFRAME_X86_64_RBP
  | PLFRAME_X86_64_RSP
  | PLFRAME_X86_64_R10
  | PLFRAME_X86_64_R11
  | PLFRAME_X86_64_R12
  | PLFRAME_X86_64_R13
  | PLFRAME_X86_64_R14
  | PLFRAME_X86_64_R15
  | PLFRAME_X86_64_RIP
  | PLFRAME_X86_64_RFLAGS
  | PLFRAME_X86_64_CS
  | PLFRAME_X86_64_FS
  | PLFRAME_X86_64_GS
deriving DecidableEq, Repr

/-- libunwind register numbers used by the source (UNW_REG_IP and the
UNW_X86_64_* targets of the MAP_REG macro). -/
inductive unw_regnum where
  | UNW_REG_IP
  | UNW_X86_64_RAX
  | UNW_X86_64_RBX
  | UNW_X86_64_RCX
  | UNW_X86_64_RDX
  | UNW_X86_64_RDI
  | UNW_X86_64_RSI
  | UNW_X86_64_RBP
  | UNW_X86_64_RSP
  | UNW_X86_64_R10
  | UNW_X86_64_R11
  | UNW_X86_64_R12
  | UNW_X86_64_R13
  | UNW_X86_64_R14
  | UNW_X86_64_R15
deriving DecidableEq, Repr

/-- The general-purpose slice of the thread-state snapshot
(cursor->uap->uc_mcontext->__ss): the fields of x86_thread_state64_t that the
source reads (rip and rsp in plframe_cursor_init and in the rescan reseeding,
rflags/cs/fs/gs through the RETGEN macro in plframe_get_reg). -/
structure x86_thread_state64 where
  rip : Nat
  rsp : Nat
  rflags : Nat
  cs : Nat
  fs : Nat
  gs : Nat
deriving DecidableEq, Repr

/-- One loaded-image descriptor of the external image list
(the image field of plcrash_async_image_t): a base address (header) and the size of
the text segment (textsize). -/
structure plcrash_async_image where
  header : Nat
  textsize : Nat
deriving DecidableEq, Repr

/-- The walker cursor (plframe_cursor_t, declared in PLCrashFrameWalker.h; the
fields are the ones the translation unit in src/ reads and writes).  unwcrsr is
the opaque libunwind cursor handle, fp0 is fp[0] (only initialized, never used
by the libunwind-based walker). -/
structure plframe_cursor where
  ss : x86_thread_state64
  nframe : Int
  fp0 : Nat
  image_list : List plcrash_async_image
  endstack : Bool
  last_unwind_address : Nat
  last_stack_pointer : Nat
  last_valid_frame : Nat
  unwcrsr : Nat
deriving DecidableEq, Repr

/-- The external libunwind capability: unw_step and unw_init_local return a raw
Int status together with the new opaque cursor handle; unw_get_reg returns a raw
status and the value of the requested register.  All three are pure: the C
functions mutate the unw_cursor_t in place; this is modelled by threading the
returned handle through plframe_cursor.unwcrsr. -/
structure UnwindProvider where
  step : Nat → Int × Nat
  get_reg : Nat → unw_regnum → Int × Nat
  init_local : x86_thread_state64 → Int × Nat

/-- Modelled from the spec: plframe_error_from_unwerror is declared in
PLCrashFrameWalker.h, which is not part of src/.  Per the spec (§6, §7), a
provider status of 0 (UNW_ESUCCESS) maps to success and any other
provider-reported code is passed through wrapped as a provider error. -/
def plframe_error_from_unwerror (err : Int) : plframe_error :=
  if err = 0 then .PLFRAME_ESUCCESS else .PLFRAME_EUNKNOWN err

/-- plframe_cursor_address_looks_valid (src lines 127-152): reject outright any
address whose upper 32 bits are all zero (address & 0xFFFFFFFF00000000 == 0),
otherwise scan the image list and accept on the first image whose range
[header, header + textsize] (uint64 addition) contains the address.  The
set_reading marker calls around the loop have no effect on the result. -/
def plframe_cursor_address_looks_valid (image_list : List plcrash_async_image)
    (address : Nat) : Bool :=
  if address &&& 0xFFFFFFFF00000000 = 0 then
    false
  else
    image_list.any fun entry =>
      decide (entry.header ≤ address) &&
      decide (address ≤ (entry.header + entry.textsize) % 2 ^ 64)

/-- Number of words of stack the scanner will look through before giving up
(src line 158: const size_t search_space = 500). -/
def search_space : Nat := 500

/-- The for-loop of plframe_cursor_scan_stack (src lines 160-183):
for (loc = last_stack_pointer; loc <= last_stack_pointer + search_space * 8;
loc += 8).  Because the bound is inclusive, the loop body runs for
loc = lsp + 8 * k with k = 0, 1, ..., search_space: search_space + 1 = 501
iterations; the recursion makes that iteration count an explicit fuel argument.
Each iteration reads one word through the fault-tolerant primitive: a faulting
read aborts the scan with PLFRAME_ENOFRAME; an accepted word updates
last_stack_pointer to one word past its location, records it in
last_valid_frame, and returns PLFRAME_ESUCCESS. -/
def scan_loop (mem : Nat → Option Nat) (cursor : plframe_cursor) :
    Nat → Nat → plframe_error × plframe_cursor
  | 0, _ => (.PLFRAME_ENOFRAME, cursor)
  | fuel + 1, loc =>
    match mem loc with
    | none => (.PLFRAME_ENOFRAME, cursor)
    | some data =>
      if plframe_cursor_address_looks_valid cursor.image_list data then
        (.PLFRAME_ESUCCESS, { cursor with last_stack_pointer := loc + 8,
                                           last_valid_frame := data })
      else
        scan_loop mem cursor fuel (loc + 8)

/-- plframe_cursor_scan_stack (src lines 154-186): scan at most
search_space + 1 = 501 words forward from the last_stack_pointer of the cursor.
mem is the external fault-tolerant read primitive plframe_read_addr. -/
def plframe_cursor_scan_stack (mem : Nat → Option Nat) (cursor : plframe_cursor) :
    plframe_error × plframe_cursor :=
  scan_loop mem cursor (search_space + 1) cursor.last_stack_pointer

/-- plframe_cursor_init (src lines 42-69): seed the cursor from the general-purpose
registers of the snapshot and obtain the initial libunwind handle via
unw_init_local. -/
def plframe_cursor_init (p : UnwindProvider) (ss : x86_thread_state64)
    (image_list : List plcrash_async_image) : plframe_error × plframe_cursor :=
  (plframe_error_from_unwerror (p.init_local ss).1,
   { ss := ss
     nframe := -1
     fp0 := 0
     image_list := image_list
     endstack := false
     last_unwind_address := 0
     last_stack_pointer := ss.rsp
     last_valid_frame := ss.rip
     unwcrsr := (p.init_local ss).2 })

/-- plframe_cursor_next (src lines 189-264).  The third component of the result
is a ghost flag recording whether plframe_cursor_scan_stack was invoked during
the call.  Control flow, in source order: the nframe == -1 first-frame shortcut;
the endstack early return; otherwise record the current provider IP in
last_unwind_address, step, increment nframe, translate a negative step status;
on step status 0 run the duplicate-frame heuristic (equal IP: stack scan, with
a PLFRAME_ENOFRAME scan result setting endstack and, like every path that falls out
of the if-chain, re-reading the provider IP into last_valid_frame before
returning PLFRAME_ESUCCESS; scan success reseeding libunwind from a copy of the
snapshot with rip overwritten; unequal IP: set endstack and fall through);
on a positive step status just record the new IP and return success. -/
def plframe_cursor_next (p : UnwindProvider) (mem : Nat → Option Nat)
    (cursor : plframe_cursor) : plframe_error × plframe_cursor × Bool :=
  if cursor.nframe = -1 then
    (.PLFRAME_ESUCCESS, { cursor with nframe := cursor.nframe + 1 }, false)
  else if cursor.endstack then
    (.PLFRAME_ENOFRAME, cursor, false)
  else
    let lua := (p.get_reg cursor.unwcrsr .UNW_REG_IP).2
    let unwr := (p.step cursor.unwcrsr).1
    let c2 := { cursor with last_unwind_address := lua
                            unwcrsr := (p.step cursor.unwcrsr).2
                            nframe := cursor.nframe + 1 }
    if unwr < 0 then
      (plframe_error_from_unwerror unwr, c2, false)
    else
      let reg := (p.get_reg c2.unwcrsr .UNW_REG_IP).2
      if unwr = 0 then
        if c2.last_unwind_address = reg then
          let scanned := plframe_cursor_scan_stack mem c2
          if scanned.1 = .PLFRAME_ENOFRAME then
            let c3 := { scanned.2 with endstack := true }
            (.PLFRAME_ESUCCESS,
             { c3 with last_valid_frame := (p.get_reg c3.unwcrsr .UNW_REG_IP).2 },
             true)
          else if scanned.1 ≠ .PLFRAME_ESUCCESS then
            (scanned.1, scanned.2, true)
          else
            let state := { c2.ss with rip := scanned.2.last_valid_frame }
            (plframe_error_from_unwerror (p.init_local state).1,
             { scanned.2 with unwcrsr := (p.init_local state).2 },
             true)
        else
          let c3 := { c2 with endstack := true }
          (.PLFRAME_ESUCCESS,
           { c3 with last_valid_frame := (p.get_reg c3.unwcrsr .UNW_REG_IP).2 },
           false)
      else
        (.PLFRAME_ESUCCESS,
         { c2 with last_valid_frame := (p.get_reg c2.unwcrsr .UNW_REG_IP).2 },
         false)

/-- The tail of frame-0 register lookup in plframe_get_reg (src lines 332-338):
query the provider with the mapped register number; status UNW_ESUCCESS = 0
yields the value, anything else is translated by plframe_error_from_unwerror.
The second result component is some value exactly when the C function stores
into *reg. -/
def unw_fetch (p : UnwindProvider) (cursor : plframe_cursor)
    (unwreg : unw_regnum) : plframe_error × Option Nat :=
  if (p.get_reg cursor.unwcrsr unwreg).1 = 0 then
    (.PLFRAME_ESUCCESS, some (p.get_reg cursor.unwcrsr unwreg).2)
  else
    (plframe_error_from_unwerror (p.get_reg cursor.unwcrsr unwreg).1, none)

/-- plframe_get_reg (src lines 273-341).  For nframe != 0 only RIP is served
(from last_valid_frame); everything else is PLFRAME_ENOTSUP.  On frame 0 the
MAP_REG-mapped registers and RIP go through the provider, while RFLAGS/CS/FS/GS are
taken straight from the snapshot by the RETGEN macro. -/
def plframe_get_reg (p : UnwindProvider) (cursor : plframe_cursor)
    (regnum : plframe_regnum) : plframe_error × Option Nat :=
  if cursor.nframe ≠ 0 then
    if regnum = .PLFRAME_X86_64_RIP then
      (.PLFRAME_ESUCCESS, some cursor.last_valid_frame)
    else
      (.PLFRAME_ENOTSUP, none)
  else
    match regnum with
    | .PLFRAME_X86_64_RAX => unw_fetch p cursor .UNW_X86_64_RAX
    | .PLFRAME_X86_64_RBX => unw_fetch p cursor .UNW_X86_64_RBX
    | .PLFRAME_X86_64_RCX => unw_fetch p cursor .UNW_X86_64_RCX
    | .PLFRAME_X86_64_RDX => unw_fetch p cursor .UNW_X86_64_RDX
    | .PLFRAME_X86_64_RDI => unw_fetch p cursor .UNW_X86_64_RDI
    | .PLFRAME_X86_64_RSI => unw_fetch p cursor .UNW_X86_64_RSI
    | .PLFRAME_X86_64_RBP => unw_fetch p cursor .UNW_X86_64_RBP
    | .PLFRAME_X86_64_RSP => unw_fetch p cursor .UNW_X86_64_RSP
    | .PLFRAME_X86_64_R10 => unw_fetch p cursor .UNW_X86_64_R10
    | .PLFRAME_X86_64_R11 => unw_fetch p cursor .UNW_X86_64_R11
    | .PLFRAME_X86_64_R12 => unw_fetch p cursor .UNW_X86_64_R12
    | .PLFRAME_X86_64_R13 => unw_fetch p cursor .UNW_X86_64_R13
    | .PLFRAME_X86_64_R14 => unw_fetch p cursor .UNW_X86_64_R14
    | .PLFRAME_X86_64_R15 => unw_fetch p cursor .UNW_X86_64_R15
    | .PLFRAME_X86_64_RIP => unw_fetch p cursor .UNW_REG_IP
    | .PLFRAME_X86_64_RFLAGS => (.PLFRAME_ESUCCESS, some cursor.ss.rflags)
    | .PLFRAME_X86_64_CS => (.PLFRAME_ESUCCESS, some cursor.ss.cs)
    | .PLFRAME_X86_64_FS => (.PLFRAME_ESUCCESS, some cursor.ss.fs)
    | .PLFRAME_X86_64_GS => (.PLFRAME_ESUCCESS, some cursor.ss.gs)

/-- plframe_get_freg (src lines 347-349): floating-point register access is
unconditionally unsupported. -/
def plframe_get_freg (_cursor : plframe_cursor) (_regnum : plframe_regnum) :
    plframe_error :=
  .PLFRAME_ENOTSUP

/-- A zero thread-state snapshot used by the concrete test configurations. -/
def ss0 : x86_thread_state64 :=
  { rip := 0, rsp := 0, rflags := 0, cs := 0, fs := 0, gs := 0 }

/-- A snapshot with distinctive rflags/cs values, for the register claims. -/
def ssR : x86_thread_state64 :=
  { rip := 0, rsp := 0, rflags := 0x246, cs := 0x2b, fs := 3, gs := 4 }

/-- A provider that steps in place with status 0 (done) and always reports the
same instruction pointer, so the duplicate-frame heuristic fires. -/
def prov0 : UnwindProvider :=
  { step := fun s => (0, s)
    get_reg := fun _ _ => (0, 5 * 2 ^ 32)
    init_local := fun _ => (0, 0) }

/-- A provider that steps with status 0 (done) to a fresh handle on which the
reported instruction pointer differs, so the walk terminates. -/
def provDiff : UnwindProvider :=
  { step := fun s => (0, s + 1)
    get_reg := fun s _ => (0, 5 * 2 ^ 32 + s)
    init_local := fun _ => (0, 0) }

/-- A memory on which every read faults. -/
def mem_fault : Nat → Option Nat := fun _ => none

/-- A memory on which every read succeeds with the word 1, which the validator
always rejects (upper 32 bits zero). -/
def mem_reject : Nat → Option Nat := fun _ => some 1

/-- A memory on which every read succeeds with a high word. -/
def mem_hit : Nat → Option Nat := fun _ => some (5 * 2 ^ 32)

/-- A memory whose 501st scanned word (byte offset 4000 = 8 * 500) is a high
word and whose first 500 words are rejected low words. -/
def memA : Nat → Option Nat := fun a => if a = 4000 then some (5 * 2 ^ 32) else some 1

/-- A one-image list whose text range is [5 * 2 ^ 32, 5 * 2 ^ 32 + 16]. -/
def imgsA : List plcrash_async_image := [{ header := 5 * 2 ^ 32, textsize := 16 }]

/-- A cursor sitting on frame 0 with an empty image list. -/
def cur0 : plframe_cursor :=
  { ss := ss0, nframe := 0, fp0 := 0, image_list := [], endstack := false,
    last_unwind_address := 0, last_stack_pointer := 0, last_valid_frame := 0,
    unwcrsr := 0 }

/-- A cursor sitting on frame 0 over the one-image list imgsA. -/
def curA : plframe_cursor := { cur0 with image_list := imgsA }

/-- A cursor on frame 1 whose end-of-stack flag is set. -/
def cur_end : plframe_cursor :=
  { cur0 with nframe := 1, endstack := true, last_valid_frame := 6 * 2 ^ 32 }

/-- A cursor on frame 1 (end-of-stack not set) carrying the distinctive
snapshot ssR. -/
def curR : plframe_cursor := { cur0 with nframe := 1, ss := ssR }

/-- The cursor curR moved back to frame 0. -/
def curR0 : plframe_cursor := { curR with nframe := 0 }

theorem land_hi_eq_zero_of_lt {a : Nat} (h : a < 2 ^ 32) :
    a &&& 0xFFFFFFFF00000000 = 0 := by
  apply Nat.eq_of_testBit_eq
  intro i
  simp only [Nat.testBit_land, Nat.zero_testBit]
  by_cases hi : i < 32
  · have hm : (0xFFFFFFFF00000000 : Nat).testBit i = false := by
      interval_cases i <;> decide
    simp [hm]
  · have hx : a.testBit i = false := by
      apply Nat.testBit_lt_two_pow
      calc a < 2 ^ 32 := h
        _ ≤ 2 ^ i := Nat.pow_le_pow_right (by norm_num) (Nat.le_of_not_lt hi)
    simp [hx]

theorem lt_two_pow_32_of_land_eq_zero {a : Nat} (h64 : a < 2 ^ 64)
    (hl : a &&& 0xFFFFFFFF00000000 = 0) : a < 2 ^ 32 := by
  by_contra hge
  push_neg at hge
  have hq : a >>> 32 ≠ 0 := by
    intro h0
    rw [Nat.shiftRight_eq_div_pow] at h0
    have := (Nat.div_eq_zero_iff (by positivity)).mp h0
    omega
  have hbit : ∃ i, (a >>> 32).testBit i = true := by
    by_contra hall
    push_neg at hall
    apply hq
    apply Nat.eq_of_testBit_eq
    intro i
    simp only [Nat.zero_testBit]
    simpa using hall i
  obtain ⟨i, hi⟩ := hbit
  have hilt : i < 32 := by
    by_contra hge2
    have hsmall : a >>> 32 < 2 ^ 32 := by
      rw [Nat.shiftRight_eq_div_pow]
      apply Nat.div_lt_of_lt_mul
      calc a < 2 ^ 64 := h64
        _ = 2 ^ 32 * 2 ^ 32 := by norm_num
    have hfalse : (a >>> 32).testBit i = false := by
      apply Nat.testBit_lt_two_pow
      calc a >>> 32 < 2 ^ 32 := hsmall
        _ ≤ 2 ^ i := Nat.pow_le_pow_right (by norm_num) (Nat.le_of_not_lt hge2)
    simp [hfalse] at hi
  have hxbit : a.testBit (32 + i) = true := by
    rw [← Nat.testBit_shiftRight]
    exact hi
  have hmbit : (0xFFFFFFFF00000000 : Nat).testBit (32 + i) = true := by
    interval_cases i <;> decide
  have hland : (a &&& 0xFFFFFFFF00000000).testBit (32 + i) = true := by
    simp [Nat.testBit_land, hxbit, hmbit]
  rw [hl] at hland
  simp [Nat.zero_testBit] at hland

theorem looks_valid_imp_ge {imgs : List plcrash_async_image} {a : Nat}
    (h : plframe_cursor_address_looks_valid imgs a = true) : 2 ^ 32 ≤ a := by
  by_contra hlt
  push_neg at hlt
  rw [plframe_cursor_address_looks_valid, if_pos (land_hi_eq_zero_of_lt hlt)] at h
  cases h

theorem scan_loop_cases (mem : Nat → Option Nat) (cursor : plframe_cursor) :
    ∀ fuel loc, scan_loop mem cursor fuel loc = (.PLFRAME_ENOFRAME, cursor) ∨
      ∃ l d, plframe_cursor_address_looks_valid cursor.image_list d = true ∧
        scan_loop mem cursor fuel loc =
          (.PLFRAME_ESUCCESS, { cursor with last_stack_pointer := l,
                                            last_valid_frame := d }) := by
  intro fuel
  induction fuel with
  | zero => intro loc; left; rfl
  | succ fuel ih =>
    intro loc
    rw [scan_loop]
    split
    · left; rfl
    · next data hm =>
      by_cases hv : plframe_cursor_address_looks_valid cursor.image_list data = true
      · right
        exact ⟨loc + 8, data, hv, by rw [if_pos hv]⟩
      · rw [if_neg hv]
        exact ih (loc + 8)

theorem scan_loop_mem_congr (mem mem2 : Nat → Option Nat)
    (cursor : plframe_cursor) :
    ∀ fuel loc, (∀ i < fuel, mem (loc + 8 * i) = mem2 (loc + 8 * i)) →
      scan_loop mem cursor fuel loc = scan_loop mem2 cursor fuel loc := by
  intro fuel
  induction fuel with
  | zero => intro loc _; rfl
  | succ fuel ih =>
    intro loc h
    have h0 : mem loc = mem2 loc := by
      have := h 0 (Nat.succ_pos fuel)
      simpa using this
    rw [scan_loop, scan_loop, ← h0]
    split
    · rfl
    · next data hm =>
      by_cases hv : plframe_cursor_address_looks_valid cursor.image_list data = true
      · rw [if_pos hv, if_pos hv]
      · rw [if_neg hv, if_neg hv]
        apply ih
        intro i hi
        have hnext := h (i + 1) (by omega)
        have harith : loc + 8 * (i + 1) = loc + 8 + 8 * i := by ring
        rwa [harith] at hnext

theorem scan_loop_rejected (mem : Nat → Option Nat) (cursor : plframe_cursor) :
    ∀ fuel loc, (∀ i < fuel, ∀ w, mem (loc + 8 * i) = some w →
        plframe_cursor_address_looks_valid cursor.image_list w = false) →
      scan_loop mem cursor fuel loc = (.PLFRAME_ENOFRAME, cursor) := by
  intro fuel
  induction fuel with
  | zero => intro loc _; rfl
  | succ fuel ih =>
    intro loc h
    rw [scan_loop]
    split
    · rfl
    · next data hm =>
      have hv : plframe_cursor_address_looks_valid cursor.image_list data = false := by
        apply h 0 (Nat.succ_pos fuel)
        simpa using hm
      rw [if_neg (by simp [hv])]
      apply ih
      intro i hi w hw
      apply h (i + 1) (by omega)
      have harith : loc + 8 * (i + 1) = loc + 8 + 8 * i := by ring
      rwa [harith]

theorem scan_loop_fault (mem : Nat → Option Nat) (cursor : plframe_cursor) :
    ∀ j fuel loc, j < fuel → mem (loc + 8 * j) = none →
      (∀ i < j, ∀ w, mem (loc + 8 * i) = some w →
        plframe_cursor_address_looks_valid cursor.image_list w = false) →
      scan_loop mem cursor fuel loc = (.PLFRAME_ENOFRAME, cursor) := by
  intro j
  induction j with
  | zero =>
    intro fuel loc hf hnone _
    obtain ⟨fuel, rfl⟩ : ∃ f, fuel = f + 1 := ⟨fuel - 1, by omega⟩
    rw [scan_loop]
    have hnone0 : mem loc = none := by simpa using hnone
    split
    · rfl
    · next data hm => rw [hnone0] at hm; cases hm
  | succ j ih =>
    intro fuel loc hf hnone hpre
    obtain ⟨fuel, rfl⟩ : ∃ f, fuel = f + 1 := ⟨fuel - 1, by omega⟩
    rw [scan_loop]
    split
    · rfl
    · next data hm =>
      have hv : plframe_cursor_address_looks_valid cursor.image_list data = false := by
        apply hpre 0 (Nat.succ_pos j)
        simpa using hm
      rw [if_neg (by simp [hv])]
      apply ih fuel (loc + 8) (by omega)
      · have harith : loc + 8 * (j + 1) = loc + 8 + 8 * j := by ring
        rwa [harith] at hnone
      · intro i hi w hw
        apply hpre (i + 1) (by omega)
        have harith : loc + 8 * (i + 1) = loc + 8 + 8 * i := by ring
        rwa [harith]

theorem scan_loop_found (mem : Nat → Option Nat) (cursor : plframe_cursor)
    (d : Nat) :
    ∀ K fuel loc, K < fuel →
      (∀ i < K, ∃ w, mem (loc + 8 * i) = some w ∧
        plframe_cursor_address_looks_valid cursor.image_list w = false) →
      mem (loc + 8 * K) = some d →
      plframe_cursor_address_looks_valid cursor.image_list d = true →
      scan_loop mem cursor fuel loc =
        (.PLFRAME_ESUCCESS, { cursor with last_stack_pointer := loc + 8 * K + 8,
                                          last_valid_frame := d }) := by
  intro K
  induction K with
  | zero =>
    intro fuel loc hf hpre hread hacc
    obtain ⟨fuel, rfl⟩ : ∃ f, fuel = f + 1 := ⟨fuel - 1, by omega⟩
    rw [scan_loop]
    have hread0 : mem loc = some d := by simpa using hread
    split
    · next hm => rw [hread0] at hm; cases hm
    · next data hm =>
      rw [hread0] at hm
      injection hm with hm
      subst hm
      rw [if_pos hacc]
  | succ K ih =>
    intro fuel loc hf hpre hread hacc
    obtain ⟨fuel, rfl⟩ : ∃ f, fuel = f + 1 := ⟨fuel - 1, by omega⟩
    rw [scan_loop]
    obtain ⟨w, hw, hwv⟩ := hpre 0 (Nat.succ_pos K)
    have hw0 : mem loc = some w := by simpa using hw
    split
    · next hm => rw [hw0] at hm; cases hm
    · next data hm =>
      rw [hw0] at hm
      injection hm with hm
      subst hm
      rw [if_neg (by simp [hwv])]
      have harith : loc + 8 * (K + 1) = loc + 8 + 8 * K := by ring
      have hres := ih fuel (loc + 8) (by omega)
        (by
          intro i hi
          obtain ⟨u, hu, huv⟩ := hpre (i + 1) (by omega)
          refine ⟨u, ?_, huv⟩
          have harith2 : loc + 8 * (i + 1) = loc + 8 + 8 * i := by ring
          rwa [harith2] at hu)
        (by rwa [harith] at hread) hacc
      rw [hres, harith]

theorem next_on_endstack (p : UnwindProvider) (mem : Nat → Option Nat)
    (c : plframe_cursor) (hn : ¬ c.nframe = -1) (he : c.endstack = true) :
    plframe_cursor_next p mem c = (.PLFRAME_ENOFRAME, c, false) := by
  unfold plframe_cursor_next
  rw [if_neg hn, if_pos he]

/-- C3: an advance call on a cursor whose end-of-stack flag is set returns
PLFRAME_ENOFRAME, does not invoke the scanner, and returns the cursor with
every field (frame index, last_unwind_address, last_stack_pointer,
last_valid_frame, end-of-stack flag, provider handle, snapshot, image list)
unchanged.  The frame index of an initialized cursor is at least 0: the
nframe = -1 first-frame shortcut is unreachable once the flag is set, since
plframe_cursor_init clears the flag and plframe_cursor_next only ever sets it
after incrementing nframe past 0. -/
theorem claim_C3_endstack_idempotent (p : UnwindProvider)
    (mem : Nat → Option Nat) (c : plframe_cursor)
    (hn : 0 ≤ c.nframe) (he : c.endstack = true) :
    plframe_cursor_next p mem c = (.PLFRAME_ENOFRAME, c, false) :=
  next_on_endstack p mem c (by omega) he

theorem claim_C3_witness :
    plframe_cursor_next prov0 mem_fault cur_end = (.PLFRAME_ENOFRAME, cur_end, false) :=
  claim_C3_endstack_idempotent prov0 mem_fault cur_end (by decide) (by decide)

/-- C4: when the words at offsets 0, ..., K-1 from last_stack_pointer are all
readable and rejected by the address validator and the word at offset K
(K within the 500-word search budget) is accepted, plframe_cursor_scan_stack
returns PLFRAME_ESUCCESS, records the accepted word in last_valid_frame, and
advances last_stack_pointer to exactly one word (8 bytes) past the address at
which the word was found. -/
theorem claim_C4_scan_finds_kth_word (mem : Nat → Option Nat)
    (c : plframe_cursor) (d K : Nat) (hK : K < search_space)
    (hpre : ∀ i < K, ∃ w, mem (c.last_stack_pointer + 8 * i) = some w ∧
      plframe_cursor_address_looks_valid c.image_list w = false)
    (hread : mem (c.last_stack_pointer + 8 * K) = some d)
    (hacc : plframe_cursor_address_looks_valid c.image_list d = true) :
    plframe_cursor_scan_stack mem c =
      (.PLFRAME_ESUCCESS,
       { c with last_stack_pointer := c.last_stack_pointer + 8 * K + 8,
                last_valid_frame := d }) := by
  unfold plframe_cursor_scan_stack
  exact scan_loop_found mem c d K (search_space + 1) c.last_stack_pointer
    (by omega) hpre hread hacc

theorem claim_C4_witness :
    plframe_cursor_scan_stack mem_hit curA =
      (.PLFRAME_ESUCCESS,
       { curA with last_stack_pointer := curA.last_stack_pointer + 8 * 0 + 8,
                   last_valid_frame := 5 * 2 ^ 32 }) :=
  claim_C4_scan_finds_kth_word mem_hit curA (5 * 2 ^ 32) 0 (by decide)
    (fun i hi => absurd hi (Nat.not_lt_zero i)) rfl (by decide)

/-- C5 counterexample: the scan loop bound is inclusive
(loc <= last_stack_pointer + 500 * 8), so the scanner reads up to 501 words,
not 500.  Concretely: every one of the 500 words at offsets 0..499 of memA is
the rejected word 1, yet the scan returns PLFRAME_ESUCCESS (accepting the
501st word, at byte offset 4000) and mutates the cursor, where the claim as
stated requires the no-frame outcome and no state change. -/
theorem claim_C5_counterexample :
    (∀ i < search_space, memA (curA.last_stack_pointer + 8 * i) = some 1) ∧
    plframe_cursor_address_looks_valid curA.image_list 1 = false ∧
    (plframe_cursor_scan_stack memA curA).1 = .PLFRAME_ESUCCESS ∧
    (plframe_cursor_scan_stack memA curA).2 ≠ curA := by
  decide

/-- C5 amended: plframe_cursor_scan_stack reads at most 501 machine words
(offsets 0 through search_space = 500 from last_stack_pointer, the loop bound
being inclusive): its result depends on memory only through that window.  If
every readable word within that 501-word window is rejected by the address
validator, or if a word read faults before any acceptance, it returns the
no-frame outcome (not an error) and makes no state change. -/
theorem claim_C5_amended (mem mem2 : Nat → Option Nat) (c : plframe_cursor) :
    ((∀ i ≤ search_space,
        mem (c.last_stack_pointer + 8 * i) = mem2 (c.last_stack_pointer + 8 * i)) →
      plframe_cursor_scan_stack mem c = plframe_cursor_scan_stack mem2 c) ∧
    ((∀ i ≤ search_space, ∀ w, mem (c.last_stack_pointer + 8 * i) = some w →
        plframe_cursor_address_looks_valid c.image_list w = false) →
      plframe_cursor_scan_stack mem c = (.PLFRAME_ENOFRAME, c)) ∧
    (∀ j ≤ search_space, mem (c.last_stack_pointer + 8 * j) = none →
      (∀ i < j, ∀ w, mem (c.last_stack_pointer + 8 * i) = some w →
        plframe_cursor_address_looks_valid c.image_list w = false) →
      plframe_cursor_scan_stack mem c = (.PLFRAME_ENOFRAME, c)) := by
  refine ⟨?_, ?_, ?_⟩
  · intro h
    unfold plframe_cursor_scan_stack
    exact scan_loop_mem_congr mem mem2 c (search_space + 1) c.last_stack_pointer
      (fun i hi => h i (by omega))
  · intro h
    unfold plframe_cursor_scan_stack
    exact scan_loop_rejected mem c (search_space + 1) c.last_stack_pointer
      (fun i hi w hw => h i (by omega) w hw)
  · intro j hj hnone hpre
    unfold plframe_cursor_scan_stack
    exact scan_loop_fault mem c j (search_space + 1) c.last_stack_pointer
      (by omega) hnone hpre

theorem claim_C5_witness :
    plframe_cursor_scan_stack mem_reject cur0 = (.PLFRAME_ENOFRAME, cur0) :=
  (claim_C5_amended mem_reject mem_reject cur0).2.1
    (by
      intro i hi w hw
      simp only [mem_reject, Option.some.injEq] at hw
      subst hw
      decide)

/-- C9: plframe_cursor_scan_stack leaves the frame index, the end-of-stack
flag, the snapshot, the image list, the provider handle, last_unwind_address
and fp[0] unchanged on every outcome; on PLFRAME_ENOFRAME the whole cursor is
returned unchanged, so on success only last_stack_pointer and last_valid_frame
can differ from the input cursor. -/
theorem claim_C9_scan_frame_effect (mem : Nat → Option Nat)
    (c : plframe_cursor) :
    ((plframe_cursor_scan_stack mem c).2.nframe = c.nframe ∧
     (plframe_cursor_scan_stack mem c).2.endstack = c.endstack ∧
     (plframe_cursor_scan_stack mem c).2.ss = c.ss ∧
     (plframe_cursor_scan_stack mem c).2.image_list = c.image_list ∧
     (plframe_cursor_scan_stack mem c).2.unwcrsr = c.unwcrsr ∧
     (plframe_cursor_scan_stack mem c).2.last_unwind_address = c.last_unwind_address ∧
     (plframe_cursor_scan_stack mem c).2.fp0 = c.fp0) ∧
    ((plframe_cursor_scan_stack mem c).1 = .PLFRAME_ENOFRAME →
      (plframe_cursor_scan_stack mem c).2 = c) := by
  have h := scan_loop_cases mem c (search_space + 1) c.last_stack_pointer
  unfold plframe_cursor_scan_stack
  rcases h with h | ⟨l, d, hv, h⟩
  · rw [h]
    exact ⟨⟨rfl, rfl, rfl, rfl, rfl, rfl, rfl⟩, fun _ => rfl⟩
  · rw [h]
    exact ⟨⟨rfl, rfl, rfl, rfl, rfl, rfl, rfl⟩, fun hc => plframe_error.noConfusion hc⟩

theorem claim_C9_witness :
    (plframe_cursor_scan_stack mem_fault cur0).2 = cur0 :=
  (claim_C9_scan_frame_effect mem_fault cur0).2 (by decide)

/-- C10: whenever plframe_cursor_scan_stack returns success, the word recorded
into last_valid_frame has nonzero upper 32 bits, i.e. is at least 2 ^ 32: the
address validator fast path rejects every smaller word before the scanner
can accept it. -/
theorem claim_C10_scan_result_upper_bits (mem : Nat → Option Nat)
    (c : plframe_cursor)
    (h : (plframe_cursor_scan_stack mem c).1 = .PLFRAME_ESUCCESS) :
    2 ^ 32 ≤ (plframe_cursor_scan_stack mem c).2.last_valid_frame := by
  have hc := scan_loop_cases mem c (search_space + 1) c.last_stack_pointer
  unfold plframe_cursor_scan_stack at h ⊢
  rcases hc with hc | ⟨l, d, hv, hc⟩
  · rw [hc] at h
    exact plframe_error.noConfusion h
  · rw [hc]
    exact looks_valid_imp_ge hv

theorem claim_C10_witness :
    2 ^ 32 ≤ (plframe_cursor_scan_stack mem_hit curA).2.last_valid_frame :=
  claim_C10_scan_result_upper_bits mem_hit curA (by decide)

/-- C6: the address validator returns false for every address whose upper 32
bits are zero, for every image list whatsoever (including one that would match
everything); for every other (64-bit) address it returns true exactly when some
registered image satisfies header ≤ address ≤ header + textsize (the image
ranges being 64-bit quantities, i.e. not wrapping). -/
theorem claim_C6_address_validator (address : Nat) (h64 : address < 2 ^ 64) :
    (address < 2 ^ 32 → ∀ imgs : List plcrash_async_image,
      plframe_cursor_address_looks_valid imgs address = false) ∧
    (2 ^ 32 ≤ address → ∀ imgs : List plcrash_async_image,
      (∀ e ∈ imgs, e.header + e.textsize < 2 ^ 64) →
      (plframe_cursor_address_looks_valid imgs address = true ↔
        ∃ e ∈ imgs, e.header ≤ address ∧ address ≤ e.header + e.textsize)) := by
  constructor
  · intro hlt imgs
    rw [plframe_cursor_address_looks_valid, if_pos (land_hi_eq_zero_of_lt hlt)]
  · intro hge imgs himg
    have hland : ¬ address &&& 0xFFFFFFFF00000000 = 0 := by
      intro h0
      have := lt_two_pow_32_of_land_eq_zero h64 h0
      omega
    rw [plframe_cursor_address_looks_valid, if_neg hland, List.any_eq_true]
    simp only [Bool.and_eq_true, decide_eq_true_eq]
    constructor
    · rintro ⟨e, he, h1, h2⟩
      rw [Nat.mod_eq_of_lt (himg e he)] at h2
      exact ⟨e, he, h1, h2⟩
    · rintro ⟨e, he, h1, h2⟩
      rw [← Nat.mod_eq_of_lt (himg e he)] at h2
      exact ⟨e, he, h1, h2⟩

theorem claim_C6_witness :
    plframe_cursor_address_looks_valid [{ header := 0, textsize := 2 ^ 64 - 1 }] 7 = false ∧
    plframe_cursor_address_looks_valid imgsA (5 * 2 ^ 32 + 3) = true := by
  constructor
  · exact (claim_C6_address_validator 7 (by norm_num)).1 (by norm_num) _
  · refine ((claim_C6_address_validator (5 * 2 ^ 32 + 3) (by norm_num)).2
      (by norm_num) imgsA ?_).mpr ?_
    · intro e he
      simp only [imgsA, List.mem_singleton] at he
      subst he
      norm_num
    · exact ⟨{ header := 5 * 2 ^ 32, textsize := 16 }, by simp [imgsA],
        by norm_num, by norm_num⟩

/-- C7: on a cursor whose frame index is not 0, plframe_get_reg serves the
program-counter register PLFRAME_X86_64_RIP with success and the value of the
last_valid_frame field of the cursor, and returns PLFRAME_ENOTSUP for every other
register id. -/
theorem claim_C7_nonzero_frame_registers (p : UnwindProvider)
    (c : plframe_cursor) (regnum : plframe_regnum) (hn : c.nframe ≠ 0) :
    (regnum = .PLFRAME_X86_64_RIP →
      plframe_get_reg p c regnum = (.PLFRAME_ESUCCESS, some c.last_valid_frame)) ∧
    (regnum ≠ .PLFRAME_X86_64_RIP →
      plframe_get_reg p c regnum = (.PLFRAME_ENOTSUP, none)) := by
  constructor
  · intro hrip
    rw [plframe_get_reg.eq_def, if_pos hn, if_pos hrip]
  · intro hrip
    rw [plframe_get_reg.eq_def, if_pos hn, if_neg hrip]

theorem claim_C7_witness :
    plframe_get_reg prov0 cur_end .PLFRAME_X86_64_RIP =
      (.PLFRAME_ESUCCESS, some (6 * 2 ^ 32)) ∧
    plframe_get_reg prov0 cur_end .PLFRAME_X86_64_RAX = (.PLFRAME_ENOTSUP, none) :=
  ⟨(claim_C7_nonzero_frame_registers prov0 cur_end .PLFRAME_X86_64_RIP
      (by decide)).1 rfl,
   (claim_C7_nonzero_frame_registers prov0 cur_end .PLFRAME_X86_64_RAX
      (by decide)).2 (by decide)⟩

/-- C8 counterexample: on the frame-1 cursor curR, whose snapshot holds
rflags = 0x246, plframe_get_reg with the flags register id returns
PLFRAME_ENOTSUP (the nframe != 0 early-out catches every id except RIP), not
success with the snapshot value as the claim states; likewise for the segment
registers cs, fs, gs. -/
theorem claim_C8_counterexample :
    curR.nframe = 1 ∧ curR.ss.rflags = 0x246 ∧
    plframe_get_reg prov0 curR .PLFRAME_X86_64_RFLAGS = (.PLFRAME_ENOTSUP, none) ∧
    plframe_get_reg prov0 curR .PLFRAME_X86_64_CS = (.PLFRAME_ENOTSUP, none) ∧
    plframe_get_reg prov0 curR .PLFRAME_X86_64_FS = (.PLFRAME_ENOTSUP, none) ∧
    plframe_get_reg prov0 curR .PLFRAME_X86_64_GS = (.PLFRAME_ENOTSUP, none) := by
  decide

/-- C8 amended: on frame 0 only, plframe_get_reg serves the flags register and
the three segment registers (rflags, cs, fs, gs) with success and the value
read directly from the thread-state snapshot, independently of (never
consulting) the unwind provider; on every other frame index these four
registers return PLFRAME_ENOTSUP like every non-RIP register. -/
theorem claim_C8_amended (p : UnwindProvider) (c : plframe_cursor) :
    (c.nframe = 0 →
      plframe_get_reg p c .PLFRAME_X86_64_RFLAGS = (.PLFRAME_ESUCCESS, some c.ss.rflags) ∧
      plframe_get_reg p c .PLFRAME_X86_64_CS = (.PLFRAME_ESUCCESS, some c.ss.cs) ∧
      plframe_get_reg p c .PLFRAME_X86_64_FS = (.PLFRAME_ESUCCESS, some c.ss.fs) ∧
      plframe_get_reg p c .PLFRAME_X86_64_GS = (.PLFRAME_ESUCCESS, some c.ss.gs)) ∧
    (c.nframe ≠ 0 →
      plframe_get_reg p c .PLFRAME_X86_64_RFLAGS = (.PLFRAME_ENOTSUP, none) ∧
      plframe_get_reg p c .PLFRAME_X86_64_CS = (.PLFRAME_ENOTSUP, none) ∧
      plframe_get_reg p c .PLFRAME_X86_64_FS = (.PLFRAME_ENOTSUP, none) ∧
      plframe_get_reg p c .PLFRAME_X86_64_GS = (.PLFRAME_ENOTSUP, none)) := by
  constructor
  · intro h0
    have h0' : ¬ c.nframe ≠ 0 := by omega
    refine ⟨?_, ?_, ?_, ?_⟩ <;> rw [plframe_get_reg.eq_def, if_neg h0']
  · intro hn
    refine ⟨?_, ?_, ?_, ?_⟩ <;> rw [plframe_get_reg.eq_def, if_pos hn, if_neg (by decide)]

theorem claim_C8_witness :
    plframe_get_reg prov0 curR0 .PLFRAME_X86_64_RFLAGS =
      (.PLFRAME_ESUCCESS, some 0x246) :=
  ((claim_C8_amended prov0 curR0).1 rfl).1

theorem next_done_differ (p : UnwindProvider) (mem : Nat → Option Nat)
    (c : plframe_cursor) (hn : ¬ c.nframe = -1) (he : c.endstack = false)
    (hstep : (p.step c.unwcrsr).1 = 0)
    (hne : (p.get_reg (p.step c.unwcrsr).2 .UNW_REG_IP).2 ≠
      (p.get_reg c.unwcrsr .UNW_REG_IP).2) :
    plframe_cursor_next p mem c =
      (.PLFRAME_ESUCCESS,
       { c with last_unwind_address := (p.get_reg c.unwcrsr .UNW_REG_IP).2,
                unwcrsr := (p.step c.unwcrsr).2,
                nframe := c.nframe + 1,
                endstack := true,
                last_valid_frame := (p.get_reg (p.step c.unwcrsr).2 .UNW_REG_IP).2 },
       false) := by
  unfold plframe_cursor_next
  rw [if_neg hn, if_neg (by simp [he])]
  simp only [hstep]
  rw [if_neg (by norm_num : ¬ (0 : Int) < 0)]
  rw [if_pos trivial]
  rw [if_neg (fun h => hne h.symm)]

theorem next_done_equal_ghost (p : UnwindProvider) (mem : Nat → Option Nat)
    (c : plframe_cursor) (hn : ¬ c.nframe = -1) (he : c.endstack = false)
    (hstep : (p.step c.unwcrsr).1 = 0)
    (heq : (p.get_reg (p.step c.unwcrsr).2 .UNW_REG_IP).2 =
      (p.get_reg c.unwcrsr .UNW_REG_IP).2) :
    (plframe_cursor_next p mem c).2.2 = true := by
  unfold plframe_cursor_next
  rw [if_neg hn, if_neg (by simp [he])]
  simp only [hstep]
  rw [if_neg (by norm_num : ¬ (0 : Int) < 0)]
  rw [if_pos trivial]
  rw [if_pos heq.symm]
  split
  · rfl
  · split
    · rfl
    · rfl

theorem next_done_equal_scan_nofr (p : UnwindProvider) (mem : Nat → Option Nat)
    (c : plframe_cursor) (hn : ¬ c.nframe = -1) (he : c.endstack = false)
    (hstep : (p.step c.unwcrsr).1 = 0)
    (heq : (p.get_reg (p.step c.unwcrsr).2 .UNW_REG_IP).2 =
      (p.get_reg c.unwcrsr .UNW_REG_IP).2)
    (hscan : (plframe_cursor_scan_stack mem
      { c with last_unwind_address := (p.get_reg c.unwcrsr .UNW_REG_IP).2,
               unwcrsr := (p.step c.unwcrsr).2,
               nframe := c.nframe + 1 }).1 = .PLFRAME_ENOFRAME) :
    plframe_cursor_next p mem c =
      (.PLFRAME_ESUCCESS,
       { c with last_unwind_address := (p.get_reg c.unwcrsr .UNW_REG_IP).2,
                unwcrsr := (p.step c.unwcrsr).2,
                nframe := c.nframe + 1,
                endstack := true,
                last_valid_frame := (p.get_reg (p.step c.unwcrsr).2 .UNW_REG_IP).2 },
       true) := by
  have hunch : (plframe_cursor_scan_stack mem
      { c with last_unwind_address := (p.get_reg c.unwcrsr .UNW_REG_IP).2,
               unwcrsr := (p.step c.unwcrsr).2,
               nframe := c.nframe + 1 }).2 =
      { c with last_unwind_address := (p.get_reg c.unwcrsr .UNW_REG_IP).2,
               unwcrsr := (p.step c.unwcrsr).2,
               nframe := c.nframe + 1 } := by
    rcases scan_loop_cases mem
        { c with last_unwind_address := (p.get_reg c.unwcrsr .UNW_REG_IP).2,
                 unwcrsr := (p.step c.unwcrsr).2,
                 nframe := c.nframe + 1 } (search_space + 1)
        ({ c with last_unwind_address := (p.get_reg c.unwcrsr .UNW_REG_IP).2,
                  unwcrsr := (p.step c.unwcrsr).2,
                  nframe := c.nframe + 1 } : plframe_cursor).last_stack_pointer
      with h | ⟨l, d, hv, h⟩
    · unfold plframe_cursor_scan_stack
      rw [h]
    · unfold plframe_cursor_scan_stack at hscan
      rw [h] at hscan
      exact absurd hscan (by simp)
  unfold plframe_cursor_next
  rw [if_neg hn, if_neg (by simp [he])]
  simp only [hstep]
  rw [if_neg (by norm_num : ¬ (0 : Int) < 0)]
  rw [if_pos trivial]
  rw [if_pos heq.symm, if_pos hscan, hunch]

/-- C1: when an advance call on a cursor in state Frame(n) (frame index at
least 0, end-of-stack flag clear) gets a done (0) result from the provider
step, then: if the program counter read after the step equals the
last_unwind_address recorded before the step, the call invokes
plframe_cursor_scan_stack (ghost flag true) before deciding the outcome; if
the two program counters differ, the call sets the end-of-stack flag, does not
invoke the scanner, and returns PLFRAME_ESUCCESS. -/
theorem claim_C1_duplicate_frame_heuristic (p : UnwindProvider)
    (mem : Nat → Option Nat) (c : plframe_cursor)
    (hn : 0 ≤ c.nframe) (he : c.endstack = false)
    (hstep : (p.step c.unwcrsr).1 = 0) :
    ((p.get_reg (p.step c.unwcrsr).2 .UNW_REG_IP).2 =
        (p.get_reg c.unwcrsr .UNW_REG_IP).2 →
      (plframe_cursor_next p mem c).2.2 = true) ∧
    ((p.get_reg (p.step c.unwcrsr).2 .UNW_REG_IP).2 ≠
        (p.get_reg c.unwcrsr .UNW_REG_IP).2 →
      (plframe_cursor_next p mem c).1 = .PLFRAME_ESUCCESS ∧
      (plframe_cursor_next p mem c).2.1.endstack = true ∧
      (plframe_cursor_next p mem c).2.2 = false) := by
  constructor
  · intro heq
    exact next_done_equal_ghost p mem c (by omega) he hstep heq
  · intro hne
    rw [next_done_differ p mem c (by omega) he hstep hne]
    exact ⟨rfl, rfl, rfl⟩

theorem claim_C1_witness :
    (plframe_cursor_next prov0 mem_fault cur0).2.2 = true ∧
    ((plframe_cursor_next provDiff mem_fault cur0).1 = .PLFRAME_ESUCCESS ∧
     (plframe_cursor_next provDiff mem_fault cur0).2.1.endstack = true ∧
     (plframe_cursor_next provDiff mem_fault cur0).2.2 = false) :=
  ⟨(claim_C1_duplicate_frame_heuristic prov0 mem_fault cur0 (by decide)
      (by decide) rfl).1 rfl,
   (claim_C1_duplicate_frame_heuristic provDiff mem_fault cur0 (by decide)
      (by decide) rfl).2 (by decide)⟩

/-- C2 counterexample: on the concrete configuration prov0 / mem_fault / cur0
the provider reports done with a program counter equal to the recorded
last_unwind_address and the invoked stack scan reports PLFRAME_ENOFRAME, yet
the advance call returns PLFRAME_ESUCCESS — not the no-more-frames outcome the
claim requires for that same call. -/
theorem claim_C2_counterexample :
    0 ≤ cur0.nframe ∧ cur0.endstack = false ∧
    (prov0.step cur0.unwcrsr).1 = 0 ∧
    (prov0.get_reg (prov0.step cur0.unwcrsr).2 .UNW_REG_IP).2 =
      (prov0.get_reg cur0.unwcrsr .UNW_REG_IP).2 ∧
    (plframe_cursor_scan_stack mem_fault
      { cur0 with
          last_unwind_address := (prov0.get_reg cur0.unwcrsr .UNW_REG_IP).2,
          unwcrsr := (prov0.step cur0.unwcrsr).2,
          nframe := cur0.nframe + 1 }).1 = .PLFRAME_ENOFRAME ∧
    (plframe_cursor_next prov0 mem_fault cur0).1 = .PLFRAME_ESUCCESS ∧
    (plframe_cursor_next prov0 mem_fault cur0).1 ≠ .PLFRAME_ENOFRAME := by
  decide

/-- C2 amended: when, during an advance call on a Frame(n) cursor, the
provider reports done with a program counter equal to the recorded
last_unwind_address and the invoked stack scan reports no frame, the call sets
the cursor to end-of-stack and returns PLFRAME_ESUCCESS for that same call (the
scanner having been invoked); the no-more-frames outcome is produced by the
next advance call, which leaves the cursor unchanged.  The scanner as
implemented can only report success or no-frame, so the branch propagating a
scanner error is unreachable. -/
theorem claim_C2_amended (p : UnwindProvider) (mem : Nat → Option Nat)
    (c : plframe_cursor) (hn : 0 ≤ c.nframe) (he : c.endstack = false)
    (hstep : (p.step c.unwcrsr).1 = 0)
    (heq : (p.get_reg (p.step c.unwcrsr).2 .UNW_REG_IP).2 =
      (p.get_reg c.unwcrsr .UNW_REG_IP).2)
    (hscan : (plframe_cursor_scan_stack mem
      { c with last_unwind_address := (p.get_reg c.unwcrsr .UNW_REG_IP).2,
               unwcrsr := (p.step c.unwcrsr).2,
               nframe := c.nframe + 1 }).1 = .PLFRAME_ENOFRAME) :
    (plframe_cursor_next p mem c).1 = .PLFRAME_ESUCCESS ∧
    (plframe_cursor_next p mem c).2.1.endstack = true ∧
    (plframe_cursor_next p mem c).2.2 = true ∧
    (∀ mem2, plframe_cursor_next p mem2 (plframe_cursor_next p mem c).2.1 =
      (.PLFRAME_ENOFRAME, (plframe_cursor_next p mem c).2.1, false)) ∧
    (∀ mem3 : Nat → Option Nat, ∀ c3 : plframe_cursor,
      (plframe_cursor_scan_stack mem3 c3).1 = .PLFRAME_ESUCCESS ∨
      (plframe_cursor_scan_stack mem3 c3).1 = .PLFRAME_ENOFRAME) := by
  have hmain := next_done_equal_scan_nofr p mem c (by omega) he hstep heq hscan
  refine ⟨by rw [hmain], by rw [hmain], by rw [hmain], ?_, ?_⟩
  · intro mem2
    rw [hmain]
    exact next_on_endstack p mem2 _ (by dsimp only; omega) rfl
  · intro mem3 c3
    rcases scan_loop_cases mem3 c3 (search_space + 1) c3.last_stack_pointer
      with h | ⟨l, d, hv, h⟩
    · right
      unfold plframe_cursor_scan_stack
      rw [h]
    · left
      unfold plframe_cursor_scan_stack
      rw [h]

theorem claim_C2_witness :
    (plframe_cursor_next prov0 mem_fault cur0).1 = .PLFRAME_ESUCCESS ∧
    (plframe_cursor_next prov0 mem_fault cur0).2.1.endstack = true ∧
    (plframe_cursor_next prov0 mem_fault cur0).2.2 = true := by
  have h := claim_C2_amended prov0 mem_fault cur0 (by decide) (by decide)
    rfl rfl (by decide)
  exact ⟨h.1, h.2.1, h.2.2.1⟩
